import Mathlib

/-!
Verification of the `pushover` command-line utility (src/main.go).

The program parses flags, reads a small config file, maps a priority
string to a numeric code, builds a URL-encoded form body and issues a
single POST request.  Below we embed the relevant parts of `main` as
executable Lean definitions, mirroring the Go source statement by
statement, and prove the specified properties about them.
-/

set_option autoImplicit false

namespace Pushover

/-- Mirrors the `config` struct of src/main.go lines 26-30:
`AppToken`, `DestKey` and optional `Title`. -/
structure Config where
  AppToken : String
  DestKey : String
  Title : String
deriving Repr, DecidableEq

/-! ### url.Values

Go's `url.Values` is a map from keys to values; `main` only ever uses
`Set`, which replaces the value stored under a key (or inserts the key).
We model the map as an association list in insertion order; `Encode`
(modelled further below) sorts by key, exactly as Go's
`url.Values.Encode` does, so insertion order is immaterial for the
encoded output. -/

/-- One `data.Set(k, v)` step: replace the value under `k` if the key is
present, otherwise append the new pair. -/
def Values.set (vs : List (String × String)) (k v : String) : List (String × String) :=
  if vs.any (fun q => q.1 == k) then
    vs.map (fun q => if q.1 == k then (k, v) else q)
  else
    vs ++ [(k, v)]

/-- Whether a field named `k` is present in the form data. -/
def Values.hasKey (vs : List (String × String)) (k : String) : Bool :=
  vs.any (fun q => q.1 == k)

/-- The value stored under key `k`, if present. -/
def Values.get (vs : List (String × String)) (k : String) : Option String :=
  (vs.find? (fun q => q.1 == k)).map Prod.snd

/-! ### Priority resolution

src/main.go lines 81-96: a `switch` on the `-priority` flag string.  The
accepted tokens are the five symbolic names, the five literal numeric
strings and the empty string; anything else falls to the `default`
branch, which logs the value and calls `flag.Usage` (which exits with
status 2).  We model the switch as a function to `Option String`:
`some p` is the code string assigned to `p` in the Go source, `none` is
the `default` branch. -/

/-- The `switch priority` statement of src/main.go lines 82-96; a Go
`case "lowest", "-2":` matches either of its listed values. -/
def resolvePriority (priority : String) : Option String :=
  if priority == "lowest" || priority == "-2" then some "-2"
  else if priority == "low" || priority == "-1" then some "-1"
  else if priority == "" || priority == "normal" || priority == "0" then some "0"
  else if priority == "high" || priority == "1" then some "1"
  else if priority == "highest" || priority == "2" then some "2"
  else none

/-! ### Integer flag registration and parsing

src/main.go lines 42-43 declare `var retry = 300` and
`var expire = 3600`.  Lines 52-53 then register the two integer flags:

  flag.IntVar(&retry, "retry", retry, ...)
  flag.IntVar(&retry, "expire", expire, ...)

Note that BOTH registrations pass `&retry`: the `-expire` flag is bound
to the `retry` variable.  Go's `flag.IntVar(p, name, value, usage)`
stores `value` into `*p` at registration time, and `flag.Parse` stores
each given `-name v` occurrence into the registered pointer, in
command-line order.  We model the two pointed-to variables as a record
and the pointers as an enumeration of cells. -/

/-- The two local integer variables of `main`. -/
structure IntVars where
  retry : Int
  expire : Int
deriving Repr, DecidableEq

/-- A pointer to one of the two integer variables. -/
inductive IntCell where
  | retryCell
  | expireCell
deriving Repr, DecidableEq

/-- Store through a pointer. -/
def setCell (v : IntVars) : IntCell → Int → IntVars
  | IntCell.retryCell, n => { v with retry := n }
  | IntCell.expireCell, n => { v with expire := n }

/-- The values of `var retry = 300; var expire = 3600`
(src/main.go lines 42-43) before any flag machinery runs. -/
def initialIntVars : IntVars := { retry := 300, expire := 3600 }

/-- The integer flag table of src/main.go lines 52-53, in registration
order: flag name, pointer passed to `flag.IntVar`, and the default value
passed (the variable's current value at registration time: `retry` was
300 and `expire` was 3600). -/
def intFlagDefs : List (String × IntCell × Int) :=
  [("retry", IntCell.retryCell, 300), ("expire", IntCell.retryCell, 3600)]

/-- Registration: `flag.IntVar` writes the default through the pointer. -/
def registerIntFlags (v : IntVars) : IntVars :=
  intFlagDefs.foldl (fun v d => setCell v d.2.1 d.2.2) v

/-- `flag.Parse` on the integer flags: each command-line occurrence
`-name n` (given here as a pair `(name, n)`, in command-line order)
stores `n` through the pointer registered for `name`. -/
def parseIntFlags (v : IntVars) (given : List (String × Int)) : IntVars :=
  given.foldl (fun v a =>
    match intFlagDefs.find? (fun d => d.1 == a.1) with
    | some d => setCell v d.2.1 a.2
    | none => v) v

/-- The integer variables of `main` after flag registration and
parsing, as a function of the `-retry`/`-expire` occurrences on the
command line. -/
def finalIntVars (given : List (String × Int)) : IntVars :=
  parseIntFlags (registerIntFlags initialIntVars) given

/-! ### Building the form data

src/main.go lines 77-110 assemble the `url.Values`. -/

/-- The title actually used: src/main.go lines 105-107
(`if title == "" { title = config.Title }`). -/
def resolveTitle (flagTitle cfgTitle : String) : String :=
  if flagTitle == "" then cfgTitle else flagTitle

/-- The `data` value after src/main.go lines 77-110, given the message,
the resolved priority code string `p`, the two integer variables and the
`-title` flag value.  `fmt.Sprintf("%d", n)` on a Go int prints the
decimal representation, which is what `toString : Int → String`
produces. -/
def buildData (cfg : Config) (msg p : String) (retry expire : Int)
    (flagTitle : String) : List (String × String) :=
  let data : List (String × String) := []
  let data := Values.set data "token" cfg.AppToken
  let data := Values.set data "user" cfg.DestKey
  let data := Values.set data "message" msg
  let data := if p != "0" then Values.set data "priority" p else data
  let data :=
    if p == "2" then
      Values.set (Values.set data "retry" (toString retry)) "expire" (toString expire)
    else data
  let title := resolveTitle flagTitle cfg.Title
  let data := if title != "" then Values.set data "title" title else data
  data

/-! ### Encoding

`url.Values.Encode` (called at src/main.go line 115) sorts the keys,
then emits `escape(k)=escape(v)` pairs joined by `&`.  `url.QueryEscape`
works on the UTF-8 bytes of the string: bytes that are ASCII letters,
digits or one of `-_.~` stay, a space becomes `+`, every other byte
becomes `%XX` with uppercase hex. -/

/-- The UTF-8 encoding of a character, as byte values. -/
def utf8Bytes (c : Char) : List Nat :=
  let n := c.toNat
  if n < 0x80 then [n]
  else if n < 0x800 then [0xC0 + n / 64, 0x80 + n % 64]
  else if n < 0x10000 then [0xE0 + n / 4096, 0x80 + n / 64 % 64, 0x80 + n % 64]
  else [0xF0 + n / 262144, 0x80 + n / 4096 % 64, 0x80 + n / 64 % 64, 0x80 + n % 64]

/-- Bytes `url.QueryEscape` leaves untouched: ASCII alphanumerics and
`-`, `_`, `.`, `~`. -/
def isUnreservedByte (b : Nat) : Bool :=
  (0x41 ≤ b && b ≤ 0x5A) || (0x61 ≤ b && b ≤ 0x7A) || (0x30 ≤ b && b ≤ 0x39)
    || b == 0x2D || b == 0x5F || b == 0x2E || b == 0x7E

/-- Uppercase hexadecimal digit for a value below 16. -/
def hexDigit (n : Nat) : Char :=
  (['0', '1', '2', '3', '4', '5', '6', '7', '8', '9',
    'A', 'B', 'C', 'D', 'E', 'F']).getD n '0'

/-- How `url.QueryEscape` renders one byte. -/
def escapeByte (b : Nat) : String :=
  if isUnreservedByte b then String.singleton (Char.ofNat b)
  else if b == 0x20 then "+"
  else String.mk ['%', hexDigit (b / 16 % 16), hexDigit (b % 16)]

/-- Go's `url.QueryEscape`. -/
def queryEscape (s : String) : String :=
  String.join ((s.data.map utf8Bytes).flatten.map escapeByte)

/-- Sort the form data by key, as `url.Values.Encode` does before
emitting the pairs (`main` sets every key exactly once, so which
sorting algorithm is used is immaterial). -/
def sortByKey (vs : List (String × String)) : List (String × String) :=
  List.insertionSort (fun a b => a.1 ≤ b.1) vs

/-- Go's `url.Values.Encode`: pairs in sorted key order, each rendered
as `escape(k)=escape(v)`, joined with `&`. -/
def encodeValues (vs : List (String × String)) : String :=
  String.intercalate "&" ((sortByKey vs).map (fun q => queryEscape q.1 ++ "=" ++ queryEscape q.2))

/-! ### The HTTP response and the non-200 path -/

/-- An HTTP response as `main` consumes it: the numeric status code,
the status text (`resp.Status`, e.g. `"500 Internal Server Error"`),
the body as a stream of bytes (modelled as characters), and an optional
read error that the stream reports after delivering all of
`bodyBytes`. -/
structure Response where
  status : Nat
  statusText : String
  bodyBytes : List Char
  readErr : Option String
deriving Repr

/-- `io.ReadAll(io.LimitReader(resp.Body, 1024))` at src/main.go line
122: at most 1024 bytes are read.  `LimitReader` returns end-of-input
once 1024 bytes have been delivered without touching the underlying
stream again, so a stream error positioned after 1024 or more delivered
bytes never surfaces. -/
def readLimited (bodyBytes : List Char) (readErr : Option String) :
    List Char × Option String :=
  if 1024 ≤ bodyBytes.length then (bodyBytes.take 1024, none)
  else (bodyBytes, readErr)

/-- Go's `%q` verb wraps a string in double quotes (we elide the
escaping `%q` additionally applies to quotes, backslashes and
non-printable characters, which none of the strings at issue
contain). -/
def goQuote (s : String) : String := "\"" ++ s ++ "\""

/-! ### The whole of `main` as a function

The observable outcome of one run: the exit status, the log lines
written (in order), whether the usage text and the config template were
printed, and the encoded body of the HTTP request if one was issued. -/

structure Outcome where
  exitCode : Nat
  logs : List String
  usagePrinted : Bool
  templatePrinted : Bool
  request : Option String
deriving Repr, DecidableEq

/-- `flag.Usage` of src/main.go lines 55-59: log the usage line, print
the flag defaults and exit with status 2. -/
def usageOutcome (logs : List String) (request : Option String) : Outcome :=
  { exitCode := 2
    logs := logs ++ ["usage: pushover [flags] message..."]
    usagePrinted := true
    templatePrinted := false
    request := request }

/-- The warning line of src/main.go lines 123-125: logged exactly when
the limited body read reported an error. -/
def responseWarnings (r : Response) : List String :=
  match (readLimited r.bodyBytes r.readErr).2 with
  | some e => ["warning: reading error response body: " ++ e]
  | none => []

/-- The `log.Fatalf` line of src/main.go line 126, built from the
status text and the captured body snippet. -/
def fatalResponseLine (r : Response) : String :=
  "got status " ++ goQuote r.statusText ++ ", expected 200 ok, body "
    ++ goQuote (String.mk (readLimited r.bodyBytes r.readErr).1)

/-- src/main.go lines 121-127: on a status other than 200, read at most
1024 bytes of the body, log a warning if that read failed, and
`log.Fatalf` (exit status 1) with the status text and the captured
body. -/
def handleBadResponse (r : Response) (request : Option String) : Outcome :=
  { exitCode := 1
    logs := responseWarnings r ++ [fatalResponseLine r]
    usagePrinted := false
    templatePrinted := false
    request := request }

/-- The body of `main` (src/main.go lines 62-128) after `flag.Parse`,
as a function of everything the environment supplies: the parsed flag
values, the positional arguments, the `-retry`/`-expire` occurrences,
the result of reading the config file, and the result of the HTTP call.
`http.NewRequestWithContext` with this fixed method and valid constant
URL cannot fail, so that `xcheckf` is dead and not modelled. -/
def runMain (printConfig : Bool) (args : List String)
    (priority flagTitle : String) (intGiven : List (String × Int))
    (cfgResult : Except String Config)
    (httpResult : Except String Response) : Outcome :=
  if printConfig then
    { exitCode := 0, logs := [], usagePrinted := false
      templatePrinted := true, request := none }
  else if args.isEmpty then
    usageOutcome [] none
  else
    let msg := String.intercalate " " args
    match cfgResult with
    | Except.error e =>
      { exitCode := 1, logs := ["parsing config file: " ++ e]
        usagePrinted := false, templatePrinted := false, request := none }
    | Except.ok cfg =>
      match resolvePriority priority with
      | none =>
        usageOutcome ["invalid priority value " ++ goQuote priority] none
      | some p =>
        let vars := finalIntVars intGiven
        let body := encodeValues (buildData cfg msg p vars.retry vars.expire flagTitle)
        match httpResult with
        | Except.error e =>
          { exitCode := 1, logs := ["api request: " ++ e]
            usagePrinted := false, templatePrinted := false, request := some body }
        | Except.ok resp =>
          if resp.status != 200 then handleBadResponse resp (some body)
          else
            { exitCode := 0, logs := [], usagePrinted := false
              templatePrinted := false, request := some body }

/-! ### Helper lemmas -/

/-- One `flag.Parse` assignment step. -/
theorem intFlagStep_expire (v : IntVars) (a : String × Int) :
    (parseIntFlags v [a]).expire = v.expire := by
  unfold parseIntFlags intFlagDefs
  by_cases h1 : ("retry" == a.1) = true
  · simp [List.find?, h1, setCell]
  · by_cases h2 : ("expire" == a.1) = true <;>
      simp [List.find?, h1, h2, setCell]

theorem parseIntFlags_cons (v : IntVars) (a : String × Int) (rest : List (String × Int)) :
    parseIntFlags v (a :: rest) = parseIntFlags (parseIntFlags v [a]) rest := by
  simp [parseIntFlags]

theorem parseIntFlags_expire (given : List (String × Int)) (v : IntVars) :
    (parseIntFlags v given).expire = v.expire := by
  induction given generalizing v with
  | nil => rfl
  | cons a rest ih =>
    rw [parseIntFlags_cons, ih, intFlagStep_expire]

theorem intFlagStep_retry (v : IntVars) (a : String × Int)
    (h : a.1 = "retry" ∨ a.1 = "expire") :
    (parseIntFlags v [a]).retry = a.2 := by
  unfold parseIntFlags intFlagDefs
  rcases h with h | h <;> simp [List.find?, h, setCell]

theorem parseIntFlags_retry_last (given : List (String × Int)) (v : IntVars)
    (lastArg : String × Int)
    (hnames : ∀ x ∈ given, x.1 = "retry" ∨ x.1 = "expire")
    (hlast : given.getLast? = some lastArg) :
    (parseIntFlags v given).retry = lastArg.2 := by
  induction given generalizing v with
  | nil => simp at hlast
  | cons a rest ih =>
    rw [parseIntFlags_cons]
    cases rest with
    | nil =>
      simp only [List.getLast?_singleton, Option.some.injEq] at hlast
      subst hlast
      exact intFlagStep_retry v a (hnames a (by simp))
    | cons b r =>
      exact ih _ (fun x hx => hnames x (List.mem_cons_of_mem a hx))
        (by simpa [List.getLast?_cons_cons] using hlast)

/-! ### Claim theorems -/

/-- C2: the priority resolver maps each symbolic name in
lowest/low/normal/high/highest and each literal numeric string in
-2, -1, 0, 1, 2 to the corresponding integer code, and maps the empty
string (flag unspecified) to code 0 (normal). -/
theorem priority_code_table :
    resolvePriority "lowest" = some (toString (-2 : Int))
  ∧ resolvePriority "low" = some (toString (-1 : Int))
  ∧ resolvePriority "normal" = some (toString (0 : Int))
  ∧ resolvePriority "high" = some (toString (1 : Int))
  ∧ resolvePriority "highest" = some (toString (2 : Int))
  ∧ resolvePriority "-2" = some (toString (-2 : Int))
  ∧ resolvePriority "-1" = some (toString (-1 : Int))
  ∧ resolvePriority "0" = some (toString (0 : Int))
  ∧ resolvePriority "1" = some (toString (1 : Int))
  ∧ resolvePriority "2" = some (toString (2 : Int))
  ∧ resolvePriority "" = some (toString (0 : Int)) := by
  decide

/-- C9: with `-printconfig` the program prints the config template and
exits with status 0, whatever the positional arguments and the config
file contents are: the check at src/main.go lines 62-65 precedes both
the argument check and `sconf.ParseFile`. -/
theorem printconfig_short_circuit (args : List String) (pr ft : String)
    (ig : List (String × Int)) (cfgResult : Except String Config)
    (httpResult : Except String Response) :
    runMain true args pr ft ig cfgResult httpResult =
      { exitCode := 0, logs := [], usagePrinted := false
        templatePrinted := true, request := none } := rfl

/-- C3 evidence: on the command line `-priority highest -retry 100
-expire 50`, the retry variable ends at 50 (the `-expire` value) and
the expire variable stays 3600, so the request carries `retry=50` and
`expire=3600` instead of the configured 100 and 50; and with neither
flag given the retry variable is 3600, not its declared default 300,
because registering the `-expire` flag overwrites it. -/
theorem expire_flag_aliasing_evidence :
    (finalIntVars [("retry", 100), ("expire", 50)]).retry = 50
  ∧ (finalIntVars [("retry", 100), ("expire", 50)]).expire = 3600
  ∧ (finalIntVars []).retry = 3600
  ∧ Values.get (buildData ⟨"t", "k", ""⟩ "m" "2"
      (finalIntVars [("retry", 100), ("expire", 50)]).retry
      (finalIntVars [("retry", 100), ("expire", 50)]).expire "") "retry" = some "50"
  ∧ Values.get (buildData ⟨"t", "k", ""⟩ "m" "2"
      (finalIntVars [("retry", 100), ("expire", 50)]).retry
      (finalIntVars [("retry", 100), ("expire", 50)]).expire "") "expire" = some "3600" := by
  decide

/-- C4: both the `-retry` and the `-expire` flag are registered against
the `retry` variable, so after `flag.Parse` the retry variable holds
the value of whichever of the two was given last, and the `expire`
variable still holds its initial 3600: no flag ever writes it. -/
theorem retry_expire_share_variable (given : List (String × Int))
    (lastArg : String × Int)
    (hnames : ∀ x ∈ given, x.1 = "retry" ∨ x.1 = "expire")
    (hlast : given.getLast? = some lastArg) :
    (finalIntVars given).retry = lastArg.2
  ∧ (finalIntVars given).expire = 3600 := by
  refine ⟨parseIntFlags_retry_last given _ lastArg hnames hlast, ?_⟩
  rw [finalIntVars, parseIntFlags_expire]
  rfl

/-- Witness for C4 at the concrete command line `-retry 100 -expire 50`. -/
theorem retry_expire_share_variable_witness :
    (finalIntVars [("retry", 100), ("expire", 50)]).retry = ("expire", (50 : Int)).2
  ∧ (finalIntVars [("retry", 100), ("expire", 50)]).expire = 3600 :=
  retry_expire_share_variable [("retry", 100), ("expire", 50)] ("expire", 50)
    (by decide) (by decide)

/-- C1: in the form data built at src/main.go lines 77-110, the `retry`
and `expire` fields are present exactly when the resolved priority code
is `2`, and the `priority` field is present exactly when the code is
non-zero. -/
theorem field_presence (pr p : String) (hp : resolvePriority pr = some p)
    (cfg : Config) (msg : String) (retry expire : Int) (flagTitle : String) :
    Values.hasKey (buildData cfg msg p retry expire flagTitle) "retry" = (p == "2")
  ∧ Values.hasKey (buildData cfg msg p retry expire flagTitle) "expire" = (p == "2")
  ∧ Values.hasKey (buildData cfg msg p retry expire flagTitle) "priority" = (p != "0") := by
  unfold resolvePriority at hp
  have hcases : p = "-2" ∨ p = "-1" ∨ p = "0" ∨ p = "1" ∨ p = "2" := by
    split_ifs at hp <;> simp_all
  clear hp
  rcases hcases with h | h | h | h | h <;> subst h <;>
    by_cases ht : resolveTitle flagTitle cfg.Title = "" <;>
      simp [buildData, Values.set, Values.hasKey, ht]

/-- Witness for C1 at `-priority highest`. -/
theorem field_presence_witness :
    Values.hasKey (buildData ⟨"t", "k", ""⟩ "m" "2" 300 3600 "") "retry" = ("2" == "2")
  ∧ Values.hasKey (buildData ⟨"t", "k", ""⟩ "m" "2" 300 3600 "") "expire" = ("2" == "2")
  ∧ Values.hasKey (buildData ⟨"t", "k", ""⟩ "m" "2" 300 3600 "") "priority" = ("2" != "0") :=
  field_presence "highest" "2" (by decide) ⟨"t", "k", ""⟩ "m" 300 3600 ""

/-- C5: an unaccepted priority string makes `main` log the invalid
value, print the usage text and exit with status 2, with no HTTP
request issued (the custom `flag.Usage` of src/main.go lines 55-59
calls `os.Exit(2)`). -/
theorem invalid_priority_usage_exit (pr ft : String) (args : List String)
    (ig : List (String × Int)) (cfg : Config) (httpR : Except String Response)
    (hpr : resolvePriority pr = none) (hargs : args ≠ []) :
    (runMain false args pr ft ig (Except.ok cfg) httpR).exitCode = 2
  ∧ (runMain false args pr ft ig (Except.ok cfg) httpR).logs =
      ["invalid priority value " ++ goQuote pr, "usage: pushover [flags] message..."]
  ∧ (runMain false args pr ft ig (Except.ok cfg) httpR).usagePrinted = true
  ∧ (runMain false args pr ft ig (Except.ok cfg) httpR).request = none := by
  cases args with
  | nil => exact absurd rfl hargs
  | cons a as => simp [runMain, hpr, usageOutcome]

/-- Witness for C5 at the invalid priority string `urgent`. -/
theorem invalid_priority_usage_exit_witness :
    (runMain false ["m"] "urgent" "" [] (Except.ok ⟨"t", "k", ""⟩)
        (Except.error "e")).exitCode = 2
  ∧ (runMain false ["m"] "urgent" "" [] (Except.ok ⟨"t", "k", ""⟩)
        (Except.error "e")).logs =
      ["invalid priority value " ++ goQuote "urgent", "usage: pushover [flags] message..."]
  ∧ (runMain false ["m"] "urgent" "" [] (Except.ok ⟨"t", "k", ""⟩)
        (Except.error "e")).usagePrinted = true
  ∧ (runMain false ["m"] "urgent" "" [] (Except.ok ⟨"t", "k", ""⟩)
        (Except.error "e")).request = none :=
  invalid_priority_usage_exit "urgent" "" ["m"] [] ⟨"t", "k", ""⟩ (Except.error "e")
    (by decide) (by simp)

/-- C6: the `title` field carries the `-title` flag value when that is
non-empty, else the config `Title` when that is non-empty, and is
absent when both are empty. -/
theorem title_resolution_order (cfg : Config) (msg p : String) (r e : Int) (ft : String) :
    Values.get (buildData cfg msg p r e ft) "title" =
      (if ft ≠ "" then some ft else if cfg.Title ≠ "" then some cfg.Title else none) := by
  by_cases hp0 : p = "0" <;> by_cases hp2 : p = "2" <;>
    by_cases hft : ft = "" <;> by_cases hct : cfg.Title = "" <;>
      simp [buildData, Values.set, Values.get, resolveTitle, List.find?, hp0, hp2, hft, hct]

/-- Helper: the `message` field always carries the message passed to
the builder; the later `Set` calls use other keys. -/
theorem get_buildData_message (cfg : Config) (msg p : String) (r e : Int) (ft : String) :
    Values.get (buildData cfg msg p r e ft) "message" = some msg := by
  by_cases hp0 : p = "0" <;> by_cases hp2 : p = "2" <;>
    by_cases ht : resolveTitle ft cfg.Title = "" <;>
      simp [buildData, Values.set, Values.get, List.find?, hp0, hp2, ht]

/-- Helper: once the priority switch succeeds, `main` issues the HTTP
request, and its body is the encoding of the built form data, whatever
the call's outcome. -/
theorem runMain_request_body (args : List String) (pr p ft : String)
    (ig : List (String × Int)) (cfg : Config) (httpR : Except String Response)
    (hargs : args ≠ []) (hp : resolvePriority pr = some p) :
    (runMain false args pr ft ig (Except.ok cfg) httpR).request =
      some (encodeValues (buildData cfg (String.intercalate " " args) p
        (finalIntVars ig).retry (finalIntVars ig).expire ft)) := by
  cases args with
  | nil => exact absurd rfl hargs
  | cons a as =>
    rcases httpR with e | r
    · simp [runMain, hp]
    · by_cases hs : r.status = 200 <;>
        simp [runMain, hp, hs, handleBadResponse]

/-- C7: without `-printconfig`, zero positional arguments lead to the
usage text and exit status 2 with no request issued; with positional
arguments, they are joined with single spaces into the `message`
field. -/
theorem message_words_joined (args : List String) (pr p ft : String)
    (ig : List (String × Int)) (cfg : Config) (cfgR : Except String Config)
    (httpR httpR2 : Except String Response)
    (hargs : args ≠ []) (hp : resolvePriority pr = some p) :
    (runMain false [] pr ft ig cfgR httpR2).exitCode = 2
  ∧ (runMain false [] pr ft ig cfgR httpR2).usagePrinted = true
  ∧ (runMain false [] pr ft ig cfgR httpR2).request = none
  ∧ (runMain false args pr ft ig (Except.ok cfg) httpR).request =
      some (encodeValues (buildData cfg (String.intercalate " " args) p
        (finalIntVars ig).retry (finalIntVars ig).expire ft))
  ∧ Values.get (buildData cfg (String.intercalate " " args) p
      (finalIntVars ig).retry (finalIntVars ig).expire ft) "message" =
      some (String.intercalate " " args) := by
  refine ⟨?_, ?_, ?_, runMain_request_body args pr p ft ig cfg httpR hargs hp,
    get_buildData_message cfg _ p _ _ ft⟩
  all_goals simp [runMain, usageOutcome]

/-- Witness for C7 at the message words `Bad stuff happened`. -/
theorem message_words_joined_witness :
    (runMain false [] "" "" [] (Except.ok ⟨"t", "k", ""⟩) (Except.ok ⟨200, "200 OK", [], none⟩)).exitCode = 2
  ∧ (runMain false [] "" "" [] (Except.ok ⟨"t", "k", ""⟩) (Except.ok ⟨200, "200 OK", [], none⟩)).usagePrinted = true
  ∧ (runMain false [] "" "" [] (Except.ok ⟨"t", "k", ""⟩) (Except.ok ⟨200, "200 OK", [], none⟩)).request = none
  ∧ (runMain false ["Bad", "stuff", "happened"] "" "" [] (Except.ok ⟨"t", "k", ""⟩)
        (Except.ok ⟨200, "200 OK", [], none⟩)).request =
      some (encodeValues (buildData ⟨"t", "k", ""⟩
        (String.intercalate " " ["Bad", "stuff", "happened"]) "0"
        (finalIntVars []).retry (finalIntVars []).expire ""))
  ∧ Values.get (buildData ⟨"t", "k", ""⟩
        (String.intercalate " " ["Bad", "stuff", "happened"]) "0"
        (finalIntVars []).retry (finalIntVars []).expire "") "message" =
      some (String.intercalate " " ["Bad", "stuff", "happened"]) :=
  message_words_joined ["Bad", "stuff", "happened"] "" "0" "" []
    ⟨"t", "k", ""⟩ (Except.ok ⟨"t", "k", ""⟩) (Except.ok ⟨200, "200 OK", [], none⟩)
    (Except.ok ⟨200, "200 OK", [], none⟩) (by simp) (by decide)

/-- C8: on a response status other than 200, `main` exits with status 1
after logging the fatal line built from the status text and the
captured body snippet; the snippet is the first at-most-1024 bytes of
the body, and a read failure adds a warning line without suppressing
the fatal line. -/
theorem bad_status_fatal (args : List String) (pr p ft : String)
    (ig : List (String × Int)) (cfg : Config) (r : Response)
    (hargs : args ≠ []) (hp : resolvePriority pr = some p) (hs : r.status ≠ 200) :
    (runMain false args pr ft ig (Except.ok cfg) (Except.ok r)).exitCode = 1
  ∧ (runMain false args pr ft ig (Except.ok cfg) (Except.ok r)).logs =
      responseWarnings r ++ [fatalResponseLine r]
  ∧ (readLimited r.bodyBytes r.readErr).1.length ≤ 1024
  ∧ (readLimited r.bodyBytes r.readErr).1 = r.bodyBytes.take 1024
  ∧ fatalResponseLine r =
      "got status " ++ goQuote r.statusText ++ ", expected 200 ok, body "
        ++ goQuote (String.mk ((readLimited r.bodyBytes r.readErr).1)) := by
  refine ⟨?_, ?_, ?_, ?_, rfl⟩
  · cases args with
    | nil => exact absurd rfl hargs
    | cons a as => simp [runMain, hp, hs, handleBadResponse]
  · cases args with
    | nil => exact absurd rfl hargs
    | cons a as => simp [runMain, hp, hs, handleBadResponse]
  · rw [readLimited]
    split
    · simp
    · rename_i h
      simpa using Nat.le_of_not_le (fun hc => h (by simpa using hc))
  · rw [readLimited]
    split
    · rfl
    · rename_i h
      exact (List.take_of_length_le (Nat.le_of_not_le (fun hc => h (by simpa using hc)))).symm

/-- Witness for C8 at a 500 response with body `error`. -/
theorem bad_status_fatal_witness :
    (runMain false ["m"] "" "" [] (Except.ok ⟨"t", "k", ""⟩)
        (Except.ok ⟨500, "500 Internal Server Error", "error".data, none⟩)).exitCode = 1
  ∧ (runMain false ["m"] "" "" [] (Except.ok ⟨"t", "k", ""⟩)
        (Except.ok ⟨500, "500 Internal Server Error", "error".data, none⟩)).logs =
      responseWarnings ⟨500, "500 Internal Server Error", "error".data, none⟩
        ++ [fatalResponseLine ⟨500, "500 Internal Server Error", "error".data, none⟩]
  ∧ (readLimited ("error".data) none).1.length ≤ 1024
  ∧ (readLimited ("error".data) none).1 = ("error".data).take 1024
  ∧ fatalResponseLine ⟨500, "500 Internal Server Error", "error".data, none⟩ =
      "got status " ++ goQuote "500 Internal Server Error" ++ ", expected 200 ok, body "
        ++ goQuote (String.mk ((readLimited ("error".data) none).1)) :=
  bad_status_fatal ["m"] "" "0" "" [] ⟨"t", "k", ""⟩
    ⟨500, "500 Internal Server Error", "error".data, none⟩
    (by simp) (by decide) (by decide)

/-- Helper: `sortByKey` really sorts: its output is ordered by key. -/
theorem sortByKey_sorted (vs : List (String × String)) :
    List.Sorted (fun a b : String × String => a.1 ≤ b.1) (sortByKey vs) := by
  haveI : IsTotal (String × String) (fun a b => a.1 ≤ b.1) :=
    ⟨fun a b => le_total a.1 b.1⟩
  haveI : IsTrans (String × String) (fun a b => a.1 ≤ b.1) :=
    ⟨fun _ _ _ hab hbc => le_trans hab hbc⟩
  exact List.sorted_insertionSort _ vs

/-- C10: the request body is a function of the flag values, arguments
and config alone (two runs differing only in the HTTP outcome issue the
same body), and the encoder emits the fields in sorted key order,
independent of insertion order. -/
theorem request_body_canonical (pc : Bool) (args : List String) (pr ft : String)
    (ig : List (String × Int)) (cfgR : Except String Config)
    (httpR1 httpR2 : Except String Response) (vs : List (String × String)) :
    (runMain pc args pr ft ig cfgR httpR1).request =
      (runMain pc args pr ft ig cfgR httpR2).request
  ∧ ((sortByKey vs).map Prod.fst).Sorted (· ≤ ·)
  ∧ encodeValues vs = String.intercalate "&"
      ((sortByKey vs).map (fun q => queryEscape q.1 ++ "=" ++ queryEscape q.2)) := by
  refine ⟨?_, ?_, rfl⟩
  · cases pc with
    | true => rfl
    | false =>
      cases args with
      | nil => rfl
      | cons a as =>
        cases cfgR with
        | error e => rfl
        | ok cfg =>
          cases hpr : resolvePriority pr with
          | none => simp [runMain, hpr]
          | some p =>
            rw [runMain_request_body (a :: as) pr p ft ig cfg httpR1 (by simp) hpr,
              runMain_request_body (a :: as) pr p ft ig cfg httpR2 (by simp) hpr]
  · simpa [List.Sorted, List.pairwise_map] using sortByKey_sorted vs

end Pushover
